import Mathlib

/-!
Verification of the first-person movement controller of this repository.

The repository holds three near-duplicate implementations of the same
single-actor movement-and-collision kernel:

* `ScriptA` — the first file in `src/script.js` (WALK_SPEED 50, axis-separated
  horizontal collision with a revert-and-zero response per axis);
* `ScriptB` — the second file in `src/script.js` (crouch and wall-jump variant;
  it declares `GRAVITY = 40.0` but its gravity line hardcodes `9.8 * 10.0`);
* `Game` — `src/game.js` (crouch variant with an absolute camera-height
  assignment and a single combined-direction ray gating the horizontal move).

Numbers are modelled by `ℝ` (idealised IEEE arithmetic).  The scene-graph ray
query `raycaster.intersectObjects` is external library code (three.js), not
part of the repository; it is modelled by an oracle `Hit` mapping a ray origin
and direction to the distance of the nearest intersection with the collidable
set, `none` when the ray hits nothing.  Camera orientation (`facing`) is
written by the external mouse-look handler and enters the model as a plain
parameter (a yaw angle, or a look vector for `Game`).
-/

open Classical

noncomputable section

/-- World-space 3D vector, mirroring `THREE.Vector3`. -/
structure Vec3 where
  x : ℝ
  y : ℝ
  z : ℝ

namespace Vec3

/-- Model of `Vector3.add`. -/
def add (a b : Vec3) : Vec3 := ⟨a.x + b.x, a.y + b.y, a.z + b.z⟩

/-- Model of `Vector3.sub`. -/
def sub (a b : Vec3) : Vec3 := ⟨a.x - b.x, a.y - b.y, a.z - b.z⟩

/-- Model of `Vector3.multiplyScalar`. -/
def smul (c : ℝ) (a : Vec3) : Vec3 := ⟨c * a.x, c * a.y, c * a.z⟩

/-- Model of `Vector3.cross`. -/
def cross (a b : Vec3) : Vec3 :=
  ⟨a.y * b.z - a.z * b.y, a.z * b.x - a.x * b.z, a.x * b.y - a.y * b.x⟩

/-- Model of `Vector3.length`. -/
def length (a : Vec3) : ℝ := Real.sqrt (a.x ^ 2 + a.y ^ 2 + a.z ^ 2)

/-- Model of `Vector3.normalize`: three.js divides by `this.length() || 1`, so the zero
vector is returned unchanged and no division by zero happens. -/
def normalize (a : Vec3) : Vec3 :=
  if length a = 0 then a else smul (1 / length a) a

end Vec3

/-- Model of the external three.js ray query `intersectObjects` against the
static collidable set: origin and direction of the ray give the distance of
the nearest intersection, `none` when the ray intersects nothing. -/
def Hit : Type := Vec3 → Vec3 → Option ℝ

/-- A world with no collidable geometry in range of any ray. -/
def hitNone : Hit := fun _ _ => none

/-- JavaScript boolean-to-number coercion `Number(bool)`. -/
def bnum (b : Bool) : ℝ := if b then 1 else 0

/-- The raw 2D intent vector `(right - left, 0, forward - backward)` written
into the persistent `direction` vector (its `y` component is never assigned
and stays `0`) before `direction.normalize()` is called. -/
def intent (f b l r : Bool) : Vec3 := ⟨bnum r - bnum l, 0, bnum f - bnum b⟩

/-- Rotation about the world Y axis, `Vector3.applyAxisAngle((0,1,0), θ)`. -/
def rotY (θ : ℝ) (v : Vec3) : Vec3 :=
  ⟨v.x * Real.cos θ + v.z * Real.sin θ, v.y, -v.x * Real.sin θ + v.z * Real.cos θ⟩

/-- Camera right vector for yaw `θ` (pitch ignored: only horizontal motion
uses it), as used by `PointerLockControls.moveRight`. -/
def rightVec (θ : ℝ) : Vec3 := ⟨Real.cos θ, 0, -Real.sin θ⟩

/-- Horizontal forward vector `up × right` used by
`PointerLockControls.moveForward`. -/
def forwardVec (θ : ℝ) : Vec3 := ⟨-Real.sin θ, 0, -Real.cos θ⟩

/-- Model of `PointerLockControls.moveRight(d)`. -/
def ctrlMoveRight (pos : Vec3) (θ d : ℝ) : Vec3 := Vec3.add pos (Vec3.smul d (rightVec θ))

/-- Model of `PointerLockControls.moveForward(d)`. -/
def ctrlMoveForward (pos : Vec3) (θ d : ℝ) : Vec3 := Vec3.add pos (Vec3.smul d (forwardVec θ))

/-- The per-axis damping line `v -= v * 10.0 * delta` shared verbatim by the
variants (`velocity.x -= velocity.x * 10.0 * delta`, same for `z`). -/
def dampStep (δ v : ℝ) : ℝ := v - v * 10 * δ

/-- Repeated damping ticks at a fixed `delta` with zero directional input. -/
def dampIter (δ v0 : ℝ) : ℕ → ℝ
  | 0 => v0
  | n + 1 => dampStep δ (dampIter δ v0 n)

/-! ## ScriptA — first variant in `src/script.js` -/

namespace ScriptA

def WALK_SPEED : ℝ := 50
def SPRINT_SPEED : ℝ := 90
def JUMP_FORCE : ℝ := 20
def GRAVITY : ℝ := 60
def PLAYER_HEIGHT : ℝ := 1.8
def PLAYER_RADIUS : ℝ := 1.5

/-- Mutable globals of the variant that the physics reads and writes:
camera position, velocity and the `canJump` flag. -/
structure State where
  pos : Vec3
  vel : Vec3
  canJump : Bool

/-- The discrete key flags sampled by the tick. -/
structure Input where
  moveForward : Bool
  moveBackward : Bool
  moveLeft : Bool
  moveRight : Bool
  isSprinting : Bool

def noInput : Input := ⟨false, false, false, false, false⟩

/-- Model of `detectCollision(newPosition)`.  Here `playerPos` is
`controls.getObject().position.clone()` — the *current* camera position at
call time.  At both call sites the argument `newPosition` is the same live
position object, after `moveRight`/`moveForward` already mutated it, so the
computed ray direction is `normalize(newPosition - playerPos)` with both
points equal.  The raycaster has near `0` and far `PLAYER_RADIUS`; blocked
means at least one intersection in range. -/
def detectCollision (hit : Hit) (playerPos newPosition : Vec3) : Prop :=
  ∃ t, hit playerPos (Vec3.normalize (Vec3.sub newPosition playerPos)) = some t ∧
    0 ≤ t ∧ t ≤ PLAYER_RADIUS

/-- The `Space` case of `onKeyDown`. -/
def onKeyDownSpace (s : State) : State :=
  if s.canJump then ⟨s.pos, ⟨s.vel.x, JUMP_FORCE, s.vel.z⟩, false⟩ else s

/-- Value of `direction` after the two component assignments and `normalize()`. -/
def direction (inp : Input) : Vec3 :=
  Vec3.normalize (intent inp.moveForward inp.moveBackward inp.moveLeft inp.moveRight)

def currentSpeed (inp : Input) : ℝ :=
  if inp.isSprinting then SPRINT_SPEED else WALK_SPEED

/-- Steps 1–4 of the tick: damping, gravity, input direction, velocity update. -/
def velAfterInput (inp : Input) (δ : ℝ) (v : Vec3) : Vec3 :=
  let vx := dampStep δ v.x
  let vz := dampStep δ v.z
  let vy := v.y - GRAVITY * δ
  let d := direction inp
  let vz2 := if inp.moveForward ∨ inp.moveBackward then vz - d.z * currentSpeed inp * δ else vz
  let vx2 := if inp.moveLeft ∨ inp.moveRight then vx - d.x * currentSpeed inp * δ else vx
  ⟨vx2, vy, vz2⟩

/-- Step 5: the X-axis move, its collision test with undo, then the Z-axis
move, its collision test with undo.  A blocked axis has exactly its own
position delta reverted (`moveRight(velocity.x * delta)` resp.
`moveForward(velocity.z * delta)`) and its own velocity component zeroed. -/
def horizontalMove (hit : Hit) (yaw δ : ℝ) (pos : Vec3) (v : Vec3) : Vec3 × Vec3 :=
  let px := ctrlMoveRight pos yaw (-v.x * δ)
  let xB := detectCollision hit px px
  let px' := if xB then ctrlMoveRight px yaw (v.x * δ) else px
  let vx' := if xB then 0 else v.x
  let pz := ctrlMoveForward px' yaw (-v.z * δ)
  let zB := detectCollision hit pz pz
  let pz' := if zB then ctrlMoveForward pz yaw (v.z * δ) else pz
  let vz' := if zB then 0 else v.z
  (pz', ⟨vx', v.y, vz'⟩)

/-- One locked-state pass of `animate` up to (but not including) the floor
check: velocity update, horizontal movement with collision, vertical move. -/
def animatePre (hit : Hit) (inp : Input) (yaw δ : ℝ) (s : State) : State :=
  let v1 := velAfterInput inp δ s.vel
  let pv := horizontalMove hit yaw δ s.pos v1
  ⟨⟨pv.1.x, pv.1.y + pv.2.y * δ, pv.1.z⟩, pv.2, s.canJump⟩

/-- One locked-state pass of `animate`: `animatePre` followed by the floor
check `if (position.y < PLAYER_HEIGHT) { velocity.y = 0; position.y =
PLAYER_HEIGHT; canJump = true; }` — there is no `else` branch. -/
def animate (hit : Hit) (inp : Input) (yaw δ : ℝ) (s : State) : State :=
  let t := animatePre hit inp yaw δ s
  if t.pos.y < PLAYER_HEIGHT then
    ⟨⟨t.pos.x, PLAYER_HEIGHT, t.pos.z⟩, ⟨t.vel.x, 0, t.vel.z⟩, true⟩
  else t

end ScriptA

/-! ## ScriptB — second variant in `src/script.js` (crouch + wall jump) -/

namespace ScriptB

def MOVEMENT_SPEED : ℝ := 10
def SPRINT_MULTIPLIER : ℝ := 1.8
def CROUCH_SPEED : ℝ := 5
def JUMP_FORCE : ℝ := 15
def WALL_JUMP_FORCE_UP : ℝ := 20
def WALL_JUMP_FORCE_SIDE : ℝ := 15
def GRAVITY : ℝ := 40
def PLAYER_HEIGHT : ℝ := 1.8
def CROUCH_HEIGHT : ℝ := 0.9

/-- Mutable globals of the variant: camera position (the camera *is* the
actor, so `pos.y` is the eye height above the ground plane), velocity,
`canJump` and `isCrouching`. -/
structure State where
  pos : Vec3
  vel : Vec3
  canJump : Bool
  isCrouching : Bool

structure Input where
  moveForward : Bool
  moveBackward : Bool
  moveLeft : Bool
  moveRight : Bool
  isSprinting : Bool

def noInput : Input := ⟨false, false, false, false, false⟩

/-- The four probe directions of `checkWallJump`, in source order
`+X, -X, +Z, -Z`, before the per-iteration rotation by the actor's yaw. -/
def wallJumpDirList : List Vec3 := [⟨1, 0, 0⟩, ⟨-1, 0, 0⟩, ⟨0, 0, 1⟩, ⟨0, 0, -1⟩]

/-- The `for(let dir of directions)` loop body of `checkWallJump`: the grant
condition is `intersects.length > 0 && intersects[0].distance < 2` (the
raycaster's far plane is 10, which is looser than the `< 2` test), the grant
is `velocity.y = WALL_JUMP_FORCE_UP` followed by `return`, so directions
after the first granting one are never ray-tested. -/
def checkWallJumpAux (hit : Hit) (pos v : Vec3) : List Vec3 → Vec3
  | [] => v
  | d :: rest =>
    if ∃ t, hit pos d = some t ∧ 0 ≤ t ∧ t < 2 then ⟨v.x, WALL_JUMP_FORCE_UP, v.z⟩
    else checkWallJumpAux hit pos v rest

/-- Model of `checkWallJump()`: probes the four yaw-rotated directions in order and
possibly rewrites `velocity.y`.  It reads neither `canJump` nor any
wall-jump counter, and applies no horizontal push-off. -/
def checkWallJump (hit : Hit) (yaw : ℝ) (s : State) : State :=
  { s with vel := checkWallJumpAux hit s.pos s.vel (wallJumpDirList.map (rotY yaw)) }

/-- The `Space` case of `onKeyDown`: a normal jump when `canJump`, otherwise
the wall-jump check. -/
def onKeyDownSpace (hit : Hit) (yaw : ℝ) (s : State) : State :=
  if s.canJump then { s with vel := ⟨s.vel.x, JUMP_FORCE, s.vel.z⟩, canJump := false }
  else checkWallJump hit yaw s

/-- The `KeyC` case of `onKeyDown`: entering crouch immediately lowers the
camera by `PLAYER_HEIGHT - CROUCH_HEIGHT`, inside the event handler itself. -/
def onKeyDownC (s : State) : State :=
  if s.isCrouching then s
  else { s with isCrouching := true,
                pos := ⟨s.pos.x, s.pos.y - (PLAYER_HEIGHT - CROUCH_HEIGHT), s.pos.z⟩ }

/-- The `KeyC` case of `onKeyUp`: leaving crouch immediately raises the
camera by the same amount. -/
def onKeyUpC (s : State) : State :=
  if s.isCrouching then
    { s with isCrouching := false,
             pos := ⟨s.pos.x, s.pos.y + (PLAYER_HEIGHT - CROUCH_HEIGHT), s.pos.z⟩ }
  else s

/-- Value of `isCrouching ? CROUCH_HEIGHT : PLAYER_HEIGHT` in the floor check. -/
def currentEyeHeight (s : State) : ℝ :=
  if s.isCrouching then CROUCH_HEIGHT else PLAYER_HEIGHT

/-- Computation of `actualSpeed`: base speed, sprint multiplier, crouch override. -/
def actualSpeed (inp : Input) (crouching : Bool) : ℝ :=
  let a := MOVEMENT_SPEED
  let a2 := if inp.isSprinting then a * SPRINT_MULTIPLIER else a
  if crouching then CROUCH_SPEED else a2

def direction (inp : Input) : Vec3 :=
  Vec3.normalize (intent inp.moveForward inp.moveBackward inp.moveLeft inp.moveRight)

/-- One locked-state pass of `animate` before the floor check.  Note the
gravity line of this variant is the hardcoded `velocity.y -= 9.8 * 10.0 *
delta`, not the declared constant `GRAVITY = 40.0`, which is never used. -/
def animatePre (inp : Input) (yaw δ : ℝ) (s : State) : State :=
  let vx1 := dampStep δ s.vel.x
  let vz1 := dampStep δ s.vel.z
  let vy1 := s.vel.y - 9.8 * 10 * δ
  let spd := actualSpeed inp s.isCrouching
  let d := direction inp
  let vz2 := if inp.moveForward ∨ inp.moveBackward then vz1 - d.z * 400 * δ * (spd / 10) else vz1
  let vx2 := if inp.moveLeft ∨ inp.moveRight then vx1 - d.x * 400 * δ * (spd / 10) else vx1
  let p1 := ctrlMoveRight s.pos yaw (-vx2 * δ)
  let p2 := ctrlMoveForward p1 yaw (-vz2 * δ)
  ⟨⟨p2.x, p2.y + vy1 * δ, p2.z⟩, ⟨vx2, vy1, vz2⟩, s.canJump, s.isCrouching⟩

/-- One locked-state pass of `animate`: movement (this variant has no
horizontal collision test) followed by the floor check against
`currentHeight`; again no `else` branch touches `canJump`. -/
def animate (inp : Input) (yaw δ : ℝ) (s : State) : State :=
  let t := animatePre inp yaw δ s
  if t.pos.y < currentEyeHeight t then
    ⟨⟨t.pos.x, currentEyeHeight t, t.pos.z⟩, ⟨t.vel.x, 0, t.vel.z⟩, true, t.isCrouching⟩
  else t

end ScriptB

/-! ## Game — `src/game.js` -/

namespace Game

def NORMAL_SPEED : ℝ := 5
def SPRINT_SPEED : ℝ := 10
def CROUCH_SPEED : ℝ := 2.5
def JUMP_VELOCITY : ℝ := 8
def GRAVITY : ℝ := 20
def NORMAL_HEIGHT : ℝ := 1.8
def CROUCH_HEIGHT : ℝ := 0.9

/-- Mutable globals of `game.js`: `camera.position` is the actor position. -/
structure State where
  pos : Vec3
  vel : Vec3
  canJump : Bool
  isCrouching : Bool

structure Input where
  moveForward : Bool
  moveBackward : Bool
  moveLeft : Bool
  moveRight : Bool
  isSprinting : Bool

def noInput : Input := ⟨false, false, false, false, false⟩

def currentEyeHeight (s : State) : ℝ :=
  if s.isCrouching then CROUCH_HEIGHT else NORMAL_HEIGHT

/-- Model of `updateCameraHeight()`: assigns `camera.position.y` the target height
constant directly, regardless of the current altitude. -/
def updateCameraHeight (s : State) : State :=
  { s with pos := ⟨s.pos.x, if s.isCrouching then CROUCH_HEIGHT else NORMAL_HEIGHT, s.pos.z⟩ }

/-- The `ControlLeft` case of `onKeyDown`. -/
def onKeyDownControlLeft (s : State) : State :=
  updateCameraHeight { s with isCrouching := true }

/-- The `ControlLeft` case of `onKeyUp`. -/
def onKeyUpControlLeft (s : State) : State :=
  updateCameraHeight { s with isCrouching := false }

/-- The `Space` case of `onKeyDown`. -/
def onKeyDownSpace (s : State) : State :=
  if s.canJump then { s with vel := ⟨s.vel.x, JUMP_VELOCITY, s.vel.z⟩, canJump := false }
  else s

/-- Model of `checkWallCollision(direction, distance)`: one ray from the camera along
`direction`; blocked when the nearest intersection is closer than
`distance`. -/
def checkWallCollision (hit : Hit) (pos dir : Vec3) (dist : ℝ) : Prop :=
  ∃ t, hit pos dir = some t ∧ 0 ≤ t ∧ t < dist

/-- The ground test of `checkCollisions()`: a downward ray, `onObject` when
the nearest hit is closer than the current eye height plus `0.1`. -/
def onObject (hit : Hit) (s : State) : Prop :=
  ∃ t, hit s.pos ⟨0, -1, 0⟩ = some t ∧ 0 ≤ t ∧ t < currentEyeHeight s + 0.1

/-- Model of `checkCollisions()`: on a ground hit it sets `canJump = true` and zeroes
a downward vertical velocity. -/
def checkCollisions (hit : Hit) (s : State) : State :=
  if onObject hit s then
    { s with canJump := true,
             vel := ⟨s.vel.x, if s.vel.y < 0 then 0 else s.vel.y, s.vel.z⟩ }
  else s

/-- Speed selection: sprint only when not crouching, crouch overrides. -/
def speed (inp : Input) (crouching : Bool) : ℝ :=
  if inp.isSprinting ∧ crouching = false then SPRINT_SPEED
  else if crouching then CROUCH_SPEED else NORMAL_SPEED

def direction (inp : Input) : Vec3 :=
  Vec3.normalize (intent inp.moveForward inp.moveBackward inp.moveLeft inp.moveRight)

/-- The combined horizontal movement vector: forward part from
`camera.getWorldDirection` flattened and normalized, right part from its
cross product with `up`, each scaled by `direction.{z,x} * speed * delta`.
`look` is the camera's facing vector (owned by the external mouse-look). -/
def moveVector (inp : Input) (look : Vec3) (δ spd : ℝ) : Vec3 :=
  let d := direction inp
  let fwdPart := if inp.moveForward ∨ inp.moveBackward then
      Vec3.smul (d.z * spd * δ) (Vec3.normalize ⟨look.x, 0, look.z⟩)
    else ⟨0, 0, 0⟩
  let rightPart := if inp.moveLeft ∨ inp.moveRight then
      Vec3.smul (d.x * spd * δ)
        (Vec3.normalize ⟨(Vec3.cross look ⟨0, 1, 0⟩).x, 0, (Vec3.cross look ⟨0, 1, 0⟩).z⟩)
    else ⟨0, 0, 0⟩
  Vec3.add fwdPart rightPart

/-- One pass of `animate` before the floor clamp: gravity, the single
combined-direction wall test gating the *entire* horizontal move (threshold
`0.5`), the vertical move, then `checkCollisions()`. -/
def animatePre (hit : Hit) (inp : Input) (look : Vec3) (δ : ℝ) (s : State) : State :=
  let vy1 := s.vel.y - GRAVITY * δ
  let mv := moveVector inp look δ (speed inp s.isCrouching)
  let p1 := if 0 < Vec3.length mv ∧ ¬ checkWallCollision hit s.pos (Vec3.normalize mv) 0.5
    then Vec3.add s.pos mv else s.pos
  checkCollisions hit
    ⟨⟨p1.x, p1.y + vy1 * δ, p1.z⟩, ⟨s.vel.x, vy1, s.vel.z⟩, s.canJump, s.isCrouching⟩

/-- One pass of `animate`: `animatePre` then the floor clamp against the
crouch-dependent height; no `else` branch touches `canJump`. -/
def animate (hit : Hit) (inp : Input) (look : Vec3) (δ : ℝ) (s : State) : State :=
  let t := animatePre hit inp look δ s
  if t.pos.y < currentEyeHeight t then
    ⟨⟨t.pos.x, currentEyeHeight t, t.pos.z⟩, ⟨t.vel.x, 0, t.vel.z⟩, true, t.isCrouching⟩
  else t

end Game

/-! ## Concrete worlds and states used by the analyses -/

/-- A world that reports a wall at distance 1 on every ray, modelling an
actor standing in wall contact whichever way it probes. -/
def hitAll : Hit := fun _ _ => some 1

/-- A world with a thin wall slab a little to the `+X` side of the origin:
rays whose direction has `x`-component at least `1/2` hit it at distance
`3/10`; rays without such an `x`-component miss.  It blocks a pure `+X`
step and the combined diagonal ray, but not a pure forward (`-Z`) ray. -/
def cornerWall : Hit := fun _ d => if 1 / 2 ≤ d.x then some (3 / 10) else none

/-- A world whose geometry occupies exactly the points whose `x` coordinate
is `√2/4`: the query of the first variant (whose ray direction degenerates
to zero; see `ScriptA.detectCollision`) reports a hit at distance 1 when
fired from such a point, and no hit elsewhere.  It blocks the X step of the
concrete sliding scenario and nothing else. -/
def slabAtX : Hit := fun p _ => if p.x = Real.sqrt 2 / 4 then some 1 else none

/-- One press-and-tick cycle of the ScriptB variant while airborne next to a
wall: a `Space` key-down (which, with `canJump` false, runs the wall-jump
check) followed by one physics tick of `delta = 0.1` with no held keys. -/
def wallCycle (hit : Hit) (yaw : ℝ) (s : ScriptB.State) : ScriptB.State :=
  ScriptB.animate ScriptB.noInput yaw (1 / 10) (ScriptB.onKeyDownSpace hit yaw s)

/-! ## Basic lemmas about the vector model -/

@[ext] theorem Vec3.ext' {a b : Vec3} (hx : a.x = b.x) (hy : a.y = b.y) (hz : a.z = b.z) :
    a = b := by
  cases a; cases b; simp_all

theorem Vec3.length_nonneg (a : Vec3) : 0 ≤ Vec3.length a := Real.sqrt_nonneg _

theorem Vec3.length_smul (c : ℝ) (a : Vec3) :
    Vec3.length (Vec3.smul c a) = |c| * Vec3.length a := by
  unfold Vec3.length Vec3.smul
  rw [show ((c * a.x) ^ 2 + (c * a.y) ^ 2 + (c * a.z) ^ 2)
        = c ^ 2 * (a.x ^ 2 + a.y ^ 2 + a.z ^ 2) by ring,
      Real.sqrt_mul (sq_nonneg c), Real.sqrt_sq_eq_abs]

theorem Vec3.length_zero_iff (a : Vec3) : Vec3.length a = 0 ↔ a = ⟨0, 0, 0⟩ := by
  unfold Vec3.length
  rw [Real.sqrt_eq_zero (by positivity)]
  constructor
  · intro h
    have hx : a.x ^ 2 = 0 := by nlinarith [sq_nonneg a.x, sq_nonneg a.y, sq_nonneg a.z]
    have hy : a.y ^ 2 = 0 := by nlinarith [sq_nonneg a.x, sq_nonneg a.y, sq_nonneg a.z]
    have hz : a.z ^ 2 = 0 := by nlinarith [sq_nonneg a.x, sq_nonneg a.y, sq_nonneg a.z]
    exact Vec3.ext' (sq_eq_zero_iff.mp hx) (sq_eq_zero_iff.mp hy) (sq_eq_zero_iff.mp hz)
  · intro h; rw [h]; norm_num

theorem Vec3.normalize_zero : Vec3.normalize ⟨0, 0, 0⟩ = ⟨0, 0, 0⟩ := by
  unfold Vec3.normalize
  rw [if_pos ((Vec3.length_zero_iff _).mpr rfl)]

theorem Vec3.length_normalize (a : Vec3) :
    Vec3.length (Vec3.normalize a) = if Vec3.length a = 0 then 0 else 1 := by
  unfold Vec3.normalize
  by_cases h : Vec3.length a = 0
  · simp [h]
  · have hpos : 0 < Vec3.length a := lt_of_le_of_ne (Vec3.length_nonneg a) (Ne.symm h)
    rw [if_neg h, if_neg h, Vec3.length_smul, abs_of_pos (by positivity)]
    field_simp

theorem Vec3.length_normalize_le_one (a : Vec3) : Vec3.length (Vec3.normalize a) ≤ 1 := by
  rw [Vec3.length_normalize]
  split <;> norm_num

theorem Vec3.sub_self (a : Vec3) : Vec3.sub a a = ⟨0, 0, 0⟩ := by
  unfold Vec3.sub; ext <;> dsimp <;> ring

theorem ctrlMoveRight_add (p : Vec3) (θ a b : ℝ) :
    ctrlMoveRight (ctrlMoveRight p θ a) θ b = ctrlMoveRight p θ (a + b) := by
  unfold ctrlMoveRight rightVec Vec3.add Vec3.smul
  ext <;> dsimp <;> ring

theorem ctrlMoveForward_add (p : Vec3) (θ a b : ℝ) :
    ctrlMoveForward (ctrlMoveForward p θ a) θ b = ctrlMoveForward p θ (a + b) := by
  unfold ctrlMoveForward forwardVec Vec3.add Vec3.smul
  ext <;> dsimp <;> ring

theorem ctrlMoveRight_zero (p : Vec3) (θ : ℝ) : ctrlMoveRight p θ 0 = p := by
  unfold ctrlMoveRight rightVec Vec3.add Vec3.smul
  ext <;> dsimp <;> ring

theorem ctrlMoveForward_zero (p : Vec3) (θ : ℝ) : ctrlMoveForward p θ 0 = p := by
  unfold ctrlMoveForward forwardVec Vec3.add Vec3.smul
  ext <;> dsimp <;> ring

theorem ctrlMoveRight_yaw0 (p : Vec3) (d : ℝ) :
    ctrlMoveRight p 0 d = ⟨p.x + d, p.y, p.z⟩ := by
  unfold ctrlMoveRight rightVec Vec3.add Vec3.smul
  ext <;> simp [Real.cos_zero, Real.sin_zero]

theorem ctrlMoveForward_yaw0 (p : Vec3) (d : ℝ) :
    ctrlMoveForward p 0 d = ⟨p.x, p.y, p.z - d⟩ := by
  unfold ctrlMoveForward forwardVec Vec3.add Vec3.smul
  ext <;> (dsimp; norm_num [Real.cos_zero, Real.sin_zero]; try ring)

theorem intent_none : intent false false false false = ⟨0, 0, 0⟩ := by
  unfold intent bnum; norm_num

theorem intent_fwd_right : intent true false false true = ⟨1, 0, 1⟩ := by
  unfold intent bnum; norm_num

theorem sqrt_two_pos : (0 : ℝ) < Real.sqrt 2 := Real.sqrt_pos.mpr (by norm_num)

theorem sqrt_two_mul_self : Real.sqrt 2 * Real.sqrt 2 = 2 :=
  Real.mul_self_sqrt (by norm_num)

theorem length_one_zero_one : Vec3.length ⟨1, 0, 1⟩ = Real.sqrt 2 := by
  unfold Vec3.length; norm_num

theorem normalize_one_zero_one :
    Vec3.normalize ⟨1, 0, 1⟩ = ⟨Real.sqrt 2 / 2, 0, Real.sqrt 2 / 2⟩ := by
  unfold Vec3.normalize
  rw [length_one_zero_one, if_neg (ne_of_gt sqrt_two_pos)]
  unfold Vec3.smul
  have hne := ne_of_gt sqrt_two_pos
  ext <;> dsimp <;> field_simp

theorem normalize_unit_neg_z : Vec3.normalize ⟨0, 0, -1⟩ = ⟨0, 0, -1⟩ := by
  unfold Vec3.normalize
  have h : Vec3.length ⟨0, 0, -1⟩ = 1 := by unfold Vec3.length; norm_num
  rw [h, if_neg one_ne_zero]
  unfold Vec3.smul; ext <;> norm_num

theorem normalize_unit_x : Vec3.normalize ⟨1, 0, 0⟩ = ⟨1, 0, 0⟩ := by
  unfold Vec3.normalize
  have h : Vec3.length ⟨1, 0, 0⟩ = 1 := by unfold Vec3.length; norm_num
  rw [h, if_neg one_ne_zero]
  unfold Vec3.smul; ext <;> norm_num

theorem ScriptB.checkWallJumpAux_x (hit : Hit) (pos v : Vec3) (l : List Vec3) :
    (ScriptB.checkWallJumpAux hit pos v l).x = v.x := by
  induction l with
  | nil => rfl
  | cons d rest ih =>
    unfold ScriptB.checkWallJumpAux
    split
    · rfl
    · exact ih

theorem ScriptB.checkWallJumpAux_z (hit : Hit) (pos v : Vec3) (l : List Vec3) :
    (ScriptB.checkWallJumpAux hit pos v l).z = v.z := by
  induction l with
  | nil => rfl
  | cons d rest ih =>
    unfold ScriptB.checkWallJumpAux
    split
    · rfl
    · exact ih

/-- With no colliders in range and no held keys, a ScriptA tick changes each
horizontal velocity component exactly by the damping line. -/
theorem ScriptA_animate_damp_noInput (yaw δ : ℝ) (s : ScriptA.State) :
    (ScriptA.animate hitNone ScriptA.noInput yaw δ s).vel.x = dampStep δ s.vel.x
  ∧ (ScriptA.animate hitNone ScriptA.noInput yaw δ s).vel.z = dampStep δ s.vel.z := by
  unfold ScriptA.animate ScriptA.animatePre ScriptA.horizontalMove ScriptA.velAfterInput
    ScriptA.detectCollision ScriptA.noInput hitNone
  constructor <;> (repeat' (split <;> simp_all))

/-- C4, counterexample: the damping step at the positive delta `0.3` sends
the horizontal velocity `1` to `-2` in one tick — the sign reverses and the
magnitude grows, so the decay is not monotone for every positive delta. -/
theorem C4_counterexample :
    (0 : ℝ) < 3 / 10 ∧ dampIter (3 / 10) 1 0 = 1 ∧ dampIter (3 / 10) 1 1 = -2 := by
  refine ⟨by norm_num, rfl, ?_⟩
  norm_num [dampIter, dampStep]

/-- C4, amended: for delta in `(0, 1/10]` (one over the damping constant),
the repeated damping step is the geometric sequence `v0 * (1 - 10*delta)^n`;
its magnitude is non-increasing, it never reverses sign, and it tends to `0`.
A ScriptA tick with no input and no colliders applies exactly this step to
each horizontal velocity component. -/
theorem C4_damping_geometric (δ v0 : ℝ) (h0 : 0 < δ) (h1 : δ ≤ 1 / 10) :
    (∀ yaw δ' s, (ScriptA.animate hitNone ScriptA.noInput yaw δ' s).vel.x
        = dampStep δ' s.vel.x)
  ∧ (∀ n, dampIter δ v0 n = v0 * (1 - 10 * δ) ^ n)
  ∧ (∀ n, |dampIter δ v0 (n + 1)| ≤ |dampIter δ v0 n|)
  ∧ (∀ n, 0 ≤ v0 * dampIter δ v0 n)
  ∧ Filter.Tendsto (dampIter δ v0) Filter.atTop (nhds 0) := by
  have hc0 : (0 : ℝ) ≤ 1 - 10 * δ := by linarith
  have hc1 : 1 - 10 * δ < 1 := by linarith
  have closed : ∀ n, dampIter δ v0 n = v0 * (1 - 10 * δ) ^ n := by
    intro n
    induction n with
    | zero => simp [dampIter]
    | succ n ih => unfold dampIter dampStep; rw [ih]; ring
  refine ⟨fun yaw δ' s => (ScriptA_animate_damp_noInput yaw δ' s).1, closed, ?_, ?_, ?_⟩
  · intro n
    rw [closed, closed, pow_succ, ← mul_assoc, abs_mul]
    refine mul_le_of_le_one_right (abs_nonneg _) ?_
    rw [abs_of_nonneg hc0]
    linarith
  · intro n
    rw [closed, show v0 * (v0 * (1 - 10 * δ) ^ n) = v0 ^ 2 * (1 - 10 * δ) ^ n by ring]
    exact mul_nonneg (sq_nonneg v0) (pow_nonneg hc0 n)
  · have ht : Filter.Tendsto (fun n => (1 - 10 * δ) ^ n) Filter.atTop (nhds 0) :=
      tendsto_pow_atTop_nhds_zero_of_lt_one hc0 hc1
    have ht2 := ht.const_mul v0
    rw [mul_zero] at ht2
    rw [funext closed]
    exact ht2

/-- C4, witness at `delta = 1/20`, `v0 = 4`, two and three ticks. -/
theorem C4_damping_geometric_witness :
    dampIter (1 / 20) 4 2 = 4 * (1 - 10 * (1 / 20)) ^ 2
  ∧ |dampIter (1 / 20) 4 3| ≤ |dampIter (1 / 20) 4 2|
  ∧ 0 ≤ 4 * dampIter (1 / 20) 4 2 := by
  have h := C4_damping_geometric (1 / 20) 4 (by norm_num) (by norm_num)
  exact ⟨h.2.1 2, h.2.2.1 2, h.2.2.2.1 2⟩

/-- C5: toggling crouch on then off round-trips.  In ScriptB the key
handlers shift the camera by `PLAYER_HEIGHT - CROUCH_HEIGHT` down then up,
restoring the whole state exactly; in game.js the crouch-state-derived eye
height round-trips, and the camera height round-trips from a grounded
(standing-eye-height) start.  In both variants the key handler itself
rewrites the camera height — no physics tick is involved. -/
theorem C5_crouch_round_trip (s : ScriptB.State) (u : Game.State) :
    (s.isCrouching = false →
        ScriptB.onKeyUpC (ScriptB.onKeyDownC s) = s
      ∧ (ScriptB.onKeyDownC s).pos.y
          = s.pos.y - (ScriptB.PLAYER_HEIGHT - ScriptB.CROUCH_HEIGHT)
      ∧ (ScriptB.onKeyDownC s).isCrouching = true)
  ∧ (u.isCrouching = false →
        Game.currentEyeHeight (Game.onKeyUpControlLeft (Game.onKeyDownControlLeft u))
          = Game.currentEyeHeight u
      ∧ (Game.onKeyUpControlLeft (Game.onKeyDownControlLeft u)).isCrouching = u.isCrouching
      ∧ (u.pos.y = Game.NORMAL_HEIGHT →
          (Game.onKeyUpControlLeft (Game.onKeyDownControlLeft u)).pos.y = u.pos.y)
      ∧ (Game.onKeyDownControlLeft u).pos.y = Game.CROUCH_HEIGHT) := by
  rcases s with ⟨⟨px, py, pz⟩, sv, scj, scr⟩
  rcases u with ⟨⟨ux, uy, uz⟩, uv, ucj, ucr⟩
  constructor
  · rintro rfl
    unfold ScriptB.onKeyDownC ScriptB.onKeyUpC
    simp
  · rintro rfl
    unfold Game.onKeyDownControlLeft Game.onKeyUpControlLeft Game.updateCameraHeight
      Game.currentEyeHeight
    simp
    rintro rfl
    rfl

/-- C5, witness: the round trip evaluated at concrete grounded states. -/
theorem C5_crouch_round_trip_witness :
    ScriptB.onKeyUpC (ScriptB.onKeyDownC ⟨⟨0, 1.8, 0⟩, ⟨0, 0, 0⟩, true, false⟩)
      = ⟨⟨0, 1.8, 0⟩, ⟨0, 0, 0⟩, true, false⟩
  ∧ (ScriptB.onKeyDownC ⟨⟨0, 1.8, 0⟩, ⟨0, 0, 0⟩, true, false⟩).pos.y
      = 1.8 - (ScriptB.PLAYER_HEIGHT - ScriptB.CROUCH_HEIGHT)
  ∧ Game.currentEyeHeight
      (Game.onKeyUpControlLeft
        (Game.onKeyDownControlLeft ⟨⟨0, 1.8, 0⟩, ⟨0, 0, 0⟩, true, false⟩))
      = Game.currentEyeHeight ⟨⟨0, 1.8, 0⟩, ⟨0, 0, 0⟩, true, false⟩ := by
  have h := C5_crouch_round_trip ⟨⟨0, 1.8, 0⟩, ⟨0, 0, 0⟩, true, false⟩
    ⟨⟨0, 1.8, 0⟩, ⟨0, 0, 0⟩, true, false⟩
  exact ⟨(h.1 rfl).1, (h.1 rfl).2.1, (h.2 rfl).1⟩

/-- C6: the wall-jump probes the four yaw-rotated directions in source order
`+X, -X, +Z, -Z`; a first direction whose ray hits within distance 2 yields
`velocity.y = WALL_JUMP_FORCE_UP` with the remaining directions never
ray-tested, a missing direction passes control to the rest of the list, the
horizontal velocity and position are untouched, and the check neither reads
nor writes `canJump` (so being grounded is not required). -/
theorem C6_wall_jump_first_hit (hit : Hit) (yaw : ℝ) (s : ScriptB.State)
    (d : Vec3) (rest : List Vec3) (b : Bool) :
    ScriptB.wallJumpDirList.map (rotY yaw)
      = [rotY yaw ⟨1, 0, 0⟩, rotY yaw ⟨-1, 0, 0⟩, rotY yaw ⟨0, 0, 1⟩, rotY yaw ⟨0, 0, -1⟩]
  ∧ ((∃ t, hit s.pos d = some t ∧ 0 ≤ t ∧ t < 2) →
      ScriptB.checkWallJumpAux hit s.pos s.vel (d :: rest)
        = ⟨s.vel.x, ScriptB.WALL_JUMP_FORCE_UP, s.vel.z⟩)
  ∧ (¬ (∃ t, hit s.pos d = some t ∧ 0 ≤ t ∧ t < 2) →
      ScriptB.checkWallJumpAux hit s.pos s.vel (d :: rest)
        = ScriptB.checkWallJumpAux hit s.pos s.vel rest)
  ∧ (ScriptB.checkWallJump hit yaw s).vel.x = s.vel.x
  ∧ (ScriptB.checkWallJump hit yaw s).vel.z = s.vel.z
  ∧ (ScriptB.checkWallJump hit yaw s).pos = s.pos
  ∧ (ScriptB.checkWallJump hit yaw s).canJump = s.canJump
  ∧ ScriptB.checkWallJump hit yaw { s with canJump := b }
      = { ScriptB.checkWallJump hit yaw s with canJump := b } := by
  refine ⟨by simp [ScriptB.wallJumpDirList], fun h => ?_, fun h => ?_,
    ScriptB.checkWallJumpAux_x hit s.pos s.vel _,
    ScriptB.checkWallJumpAux_z hit s.pos s.vel _, rfl, rfl, rfl⟩
  · simp only [ScriptB.checkWallJumpAux]
    rw [if_pos h]
  · simp only [ScriptB.checkWallJumpAux]
    rw [if_neg h]

/-- C6, witness: a wall one unit away in the first probed direction grants
the upward impulse and leaves everything else of the state alone. -/
theorem C6_wall_jump_first_hit_witness :
    ScriptB.checkWallJumpAux hitAll ⟨0, 3, 0⟩ ⟨2, -1, 7⟩ [⟨1, 0, 0⟩]
      = ⟨2, ScriptB.WALL_JUMP_FORCE_UP, 7⟩
  ∧ (ScriptB.checkWallJump hitAll 0 ⟨⟨0, 3, 0⟩, ⟨2, -1, 7⟩, false, false⟩).vel.x = 2
  ∧ (ScriptB.checkWallJump hitAll 0 ⟨⟨0, 3, 0⟩, ⟨2, -1, 7⟩, false, false⟩).pos
      = ⟨0, 3, 0⟩ := by
  have h := C6_wall_jump_first_hit hitAll 0 ⟨⟨0, 3, 0⟩, ⟨2, -1, 7⟩, false, false⟩
    ⟨1, 0, 0⟩ [] true
  exact ⟨h.2.1 ⟨1, rfl, by norm_num, by norm_num⟩, h.2.2.2.1, h.2.2.2.2.2.1⟩

/-- C7: the normal jump impulse (`velocity.y = JUMP_FORCE`, grounded flag
cleared) fires on a `Space` key-down exactly when `canJump` is true at the
event, the handler is a no-op otherwise, and it is idempotent — the impulse
cannot fire twice without regaining the ground.  Stated for the ScriptA and
game.js handlers (the cited sources). -/
theorem C7_jump_iff_grounded (s : ScriptA.State) (u : Game.State) :
    (s.canJump = true →
        (ScriptA.onKeyDownSpace s).vel.y = ScriptA.JUMP_FORCE
      ∧ (ScriptA.onKeyDownSpace s).canJump = false)
  ∧ (s.canJump = false → ScriptA.onKeyDownSpace s = s)
  ∧ ScriptA.onKeyDownSpace (ScriptA.onKeyDownSpace s) = ScriptA.onKeyDownSpace s
  ∧ (u.canJump = true →
        (Game.onKeyDownSpace u).vel.y = Game.JUMP_VELOCITY
      ∧ (Game.onKeyDownSpace u).canJump = false)
  ∧ (u.canJump = false → Game.onKeyDownSpace u = u)
  ∧ Game.onKeyDownSpace (Game.onKeyDownSpace u) = Game.onKeyDownSpace u := by
  unfold ScriptA.onKeyDownSpace Game.onKeyDownSpace
  rcases s with ⟨sp, sv, scj⟩
  rcases u with ⟨up, uv, ucj, ucr⟩
  cases scj <;> cases ucj <;> simp

/-- C7, witness: a grounded press jumps; an airborne press is a no-op. -/
theorem C7_jump_iff_grounded_witness :
    (ScriptA.onKeyDownSpace ⟨⟨0, 1.8, 0⟩, ⟨0, 0, 0⟩, true⟩).vel.y = ScriptA.JUMP_FORCE
  ∧ (ScriptA.onKeyDownSpace ⟨⟨0, 1.8, 0⟩, ⟨0, 0, 0⟩, true⟩).canJump = false
  ∧ Game.onKeyDownSpace ⟨⟨0, 1.8, 0⟩, ⟨0, 3, 0⟩, false, false⟩
      = ⟨⟨0, 1.8, 0⟩, ⟨0, 3, 0⟩, false, false⟩ := by
  have h := C7_jump_iff_grounded ⟨⟨0, 1.8, 0⟩, ⟨0, 0, 0⟩, true⟩
    ⟨⟨0, 1.8, 0⟩, ⟨0, 3, 0⟩, false, false⟩
  exact ⟨(h.1 rfl).1, (h.1 rfl).2, h.2.2.2.2.1 rfl⟩

/-- C8: the intent vector built from the four directional flags has, after
`normalize()`, magnitude at most 1 for every key combination (never `√2`),
and the zero-length intent vector is left as the zero vector (three.js
normalizes by `length || 1`, so no division by zero occurs). -/
theorem C8_intent_normalized (f b l r : Bool) :
    Vec3.length (ScriptA.direction ⟨f, b, l, r, false⟩) ≤ 1
  ∧ Vec3.length (Game.direction ⟨f, b, l, r, false⟩) ≤ 1
  ∧ (intent f b l r = ⟨0, 0, 0⟩ →
        ScriptA.direction ⟨f, b, l, r, false⟩ = ⟨0, 0, 0⟩
      ∧ Game.direction ⟨f, b, l, r, false⟩ = ⟨0, 0, 0⟩) := by
  refine ⟨Vec3.length_normalize_le_one _, Vec3.length_normalize_le_one _, fun h => ⟨?_, ?_⟩⟩
  · unfold ScriptA.direction
    dsimp only
    rw [h]
    exact Vec3.normalize_zero
  · unfold Game.direction
    dsimp only
    rw [h]
    exact Vec3.normalize_zero

/-- C8, witness: with every key released the intent is the zero vector and
stays the zero vector through normalization. -/
theorem C8_intent_normalized_witness :
    intent false false false false = ⟨0, 0, 0⟩
  ∧ ScriptA.direction ⟨false, false, false, false, false⟩ = ⟨0, 0, 0⟩
  ∧ Game.direction ⟨false, false, false, false, false⟩ = ⟨0, 0, 0⟩ := by
  have h := (C8_intent_normalized false false false false).2.2 intent_none
  exact ⟨intent_none, h.1, h.2⟩

/-- C9: the game.js crouch handlers assign `camera.position.y` the target
height constant outright, whatever the current altitude: crouching while
airborne above the eye height teleports the camera down to the ground-level
crouch eye height, discarding the accumulated altitude. -/
theorem C9_crouch_sets_absolute_height (u : Game.State) :
    (Game.onKeyDownControlLeft u).pos.y = Game.CROUCH_HEIGHT
  ∧ (Game.onKeyUpControlLeft u).pos.y = Game.NORMAL_HEIGHT
  ∧ (Game.onKeyDownControlLeft u).pos.x = u.pos.x
  ∧ (Game.onKeyDownControlLeft u).pos.z = u.pos.z
  ∧ (Game.NORMAL_HEIGHT < u.pos.y →
      (Game.onKeyDownControlLeft u).pos.y < u.pos.y) := by
  unfold Game.onKeyDownControlLeft Game.onKeyUpControlLeft Game.updateCameraHeight
  refine ⟨by simp, by simp, rfl, rfl, fun h => ?_⟩
  simp only [Game.CROUCH_HEIGHT]
  simp only [Game.NORMAL_HEIGHT] at h
  simp
  linarith

/-- C9, witness: an actor 5 units up gets snapped to eye height `0.9`. -/
theorem C9_crouch_sets_absolute_height_witness :
    (Game.onKeyDownControlLeft ⟨⟨0, 5, 0⟩, ⟨0, 0, 0⟩, false, false⟩).pos.y
      = Game.CROUCH_HEIGHT
  ∧ (Game.onKeyDownControlLeft ⟨⟨0, 5, 0⟩, ⟨0, 0, 0⟩, false, false⟩).pos.y < 5 := by
  have h := C9_crouch_sets_absolute_height ⟨⟨0, 5, 0⟩, ⟨0, 0, 0⟩, false, false⟩
  exact ⟨h.1, h.2.2.2.2 (show Game.NORMAL_HEIGHT < 5 by norm_num [Game.NORMAL_HEIGHT])⟩

/-- C1: evaluation of the cited code at the claim's scenario.  The jump
event does set `velocity.y` to `JUMP_FORCE = 15`, but the tick applies the
hardcoded gravity `9.8 * 10.0 = 98` (the declared `GRAVITY = 40.0` is never
used), so one tick of `delta = 0.1` gives `velocity.y = 15 - 9.8 = 5.2` and
`position.y = 1.8 + 0.52 = 2.32` — not the 11 and 2.9 the claim derives
from `GRAVITY = 40`. -/
theorem C1_code_eval :
    (ScriptB.onKeyDownSpace hitNone 0 ⟨⟨0, 1.8, 0⟩, ⟨0, 0, 0⟩, true, false⟩).vel.y
        = ScriptB.JUMP_FORCE
  ∧ ScriptB.animate ScriptB.noInput 0 (1 / 10)
        (ScriptB.onKeyDownSpace hitNone 0 ⟨⟨0, 1.8, 0⟩, ⟨0, 0, 0⟩, true, false⟩)
      = ⟨⟨0, 2.32, 0⟩, ⟨0, 5.2, 0⟩, false, false⟩
  ∧ (5.2 : ℝ) ≠ 11 ∧ (2.32 : ℝ) ≠ 2.9 := by
  refine ⟨rfl, ?_, by norm_num, by norm_num⟩
  norm_num [ScriptB.animate, ScriptB.animatePre, ScriptB.onKeyDownSpace, ScriptB.noInput,
    ScriptB.direction, ScriptB.actualSpeed, ScriptB.currentEyeHeight, ScriptB.JUMP_FORCE,
    ScriptB.CROUCH_HEIGHT, ScriptB.PLAYER_HEIGHT, intent_none, Vec3.normalize_zero,
    dampStep, ctrlMoveRight_yaw0, ctrlMoveForward_yaw0]

/-- C3, counterexample: a game.js tick from a reachable airborne state (an
actor that walked off an elevated platform, so `canJump` is still true from
the last ground contact) whose floor clamp does not fire: at the end of the
tick `position.y` is at least the eye height and `isGrounded` is still
true, not false — no code path sets the flag false. -/
theorem C3_counterexample :
    (Game.animate hitNone Game.noInput ⟨0, 0, -1⟩ (1 / 20)
        ⟨⟨0, 5.05, 0⟩, ⟨0, 0, 0⟩, true, false⟩).canJump = true
  ∧ ¬ ((Game.animate hitNone Game.noInput ⟨0, 0, -1⟩ (1 / 20)
        ⟨⟨0, 5.05, 0⟩, ⟨0, 0, 0⟩, true, false⟩).pos.y
      < Game.currentEyeHeight (Game.animate hitNone Game.noInput ⟨0, 0, -1⟩ (1 / 20)
        ⟨⟨0, 5.05, 0⟩, ⟨0, 0, 0⟩, true, false⟩)) := by
  have hobj : ∀ v : Game.State, ¬ Game.onObject hitNone v := by
    rintro v ⟨t, ht, -⟩
    exact Option.noConfusion ht
  norm_num [Game.animate, Game.animatePre, Game.checkCollisions, hobj,
    Game.moveVector, Game.noInput, Game.direction, Game.speed, Game.currentEyeHeight,
    Game.GRAVITY, Game.NORMAL_HEIGHT, intent_none, Vec3.normalize_zero,
    Vec3.add, Vec3.length, Vec3.smul]

/-- C3, amended: the floor clamp of ScriptA and game.js behaves as claimed
when it fires (`position.y` set to the eye height, `velocity.y = 0`,
`isGrounded = true`); when it does not fire the tick returns the pre-clamp
state unchanged — `isGrounded` is left as it was, not set to false (in
game.js the separate ground-ray check may additionally have set it true).
The invariant direction holds: at the end of every tick `position.y` is at
least the current eye height. -/
theorem C3_floor_clamp (hit : Hit) (inp : ScriptA.Input) (yaw δ : ℝ) (s : ScriptA.State)
    (ginp : Game.Input) (look : Vec3) (gδ : ℝ) (u : Game.State) :
    ((ScriptA.animatePre hit inp yaw δ s).pos.y < ScriptA.PLAYER_HEIGHT →
        (ScriptA.animate hit inp yaw δ s).pos.y = ScriptA.PLAYER_HEIGHT
      ∧ (ScriptA.animate hit inp yaw δ s).vel.y = 0
      ∧ (ScriptA.animate hit inp yaw δ s).canJump = true)
  ∧ (¬ (ScriptA.animatePre hit inp yaw δ s).pos.y < ScriptA.PLAYER_HEIGHT →
        ScriptA.animate hit inp yaw δ s = ScriptA.animatePre hit inp yaw δ s)
  ∧ (ScriptA.animatePre hit inp yaw δ s).canJump = s.canJump
  ∧ ScriptA.PLAYER_HEIGHT ≤ (ScriptA.animate hit inp yaw δ s).pos.y
  ∧ ((Game.animatePre hit ginp look gδ u).pos.y
        < Game.currentEyeHeight (Game.animatePre hit ginp look gδ u) →
        (Game.animate hit ginp look gδ u).pos.y
          = Game.currentEyeHeight (Game.animate hit ginp look gδ u)
      ∧ (Game.animate hit ginp look gδ u).vel.y = 0
      ∧ (Game.animate hit ginp look gδ u).canJump = true)
  ∧ (¬ (Game.animatePre hit ginp look gδ u).pos.y
        < Game.currentEyeHeight (Game.animatePre hit ginp look gδ u) →
        Game.animate hit ginp look gδ u = Game.animatePre hit ginp look gδ u)
  ∧ Game.currentEyeHeight (Game.animate hit ginp look gδ u)
      ≤ (Game.animate hit ginp look gδ u).pos.y := by
  refine ⟨fun h => ?_, fun h => ?_, rfl, ?_, fun h => ?_, fun h => ?_, ?_⟩
  · simp only [ScriptA.animate]
    rw [if_pos h]
    exact ⟨rfl, rfl, rfl⟩
  · simp only [ScriptA.animate]
    rw [if_neg h]
  · simp only [ScriptA.animate]
    split
    · exact le_of_eq rfl
    · next h => exact not_lt.mp h
  · simp only [Game.animate]
    rw [if_pos h]
    exact ⟨rfl, rfl, rfl⟩
  · simp only [Game.animate]
    rw [if_neg h]
  · simp only [Game.animate]
    split
    · exact le_of_eq rfl
    · next h => exact not_lt.mp h

/-- C3, witness: a ScriptA actor below the floor is clamped to the eye
height with zero vertical velocity and the grounded flag set. -/
theorem C3_floor_clamp_witness :
    (ScriptA.animatePre hitNone ScriptA.noInput 0 0 ⟨⟨0, 0, 0⟩, ⟨0, 0, 0⟩, false⟩).pos.y
      < ScriptA.PLAYER_HEIGHT
  ∧ (ScriptA.animate hitNone ScriptA.noInput 0 0 ⟨⟨0, 0, 0⟩, ⟨0, 0, 0⟩, false⟩).pos.y
      = ScriptA.PLAYER_HEIGHT
  ∧ (ScriptA.animate hitNone ScriptA.noInput 0 0 ⟨⟨0, 0, 0⟩, ⟨0, 0, 0⟩, false⟩).vel.y = 0
  ∧ (ScriptA.animate hitNone ScriptA.noInput 0 0 ⟨⟨0, 0, 0⟩, ⟨0, 0, 0⟩, false⟩).canJump
      = true := by
  have hpre : (ScriptA.animatePre hitNone ScriptA.noInput 0 0
      ⟨⟨0, 0, 0⟩, ⟨0, 0, 0⟩, false⟩).pos.y < ScriptA.PLAYER_HEIGHT := by
    norm_num [ScriptA.animatePre, ScriptA.horizontalMove, ScriptA.velAfterInput,
      ScriptA.detectCollision, ScriptA.noInput, ScriptA.direction, ScriptA.PLAYER_HEIGHT,
      ScriptA.GRAVITY, hitNone, intent_none, Vec3.normalize_zero, dampStep,
      ctrlMoveRight_yaw0, ctrlMoveForward_yaw0]
  have h := (C3_floor_clamp hitNone ScriptA.noInput 0 0 ⟨⟨0, 0, 0⟩, ⟨0, 0, 0⟩, false⟩
    Game.noInput ⟨0, 0, -1⟩ 0 ⟨⟨0, 1.8, 0⟩, ⟨0, 0, 0⟩, true, false⟩).1 hpre
  exact ⟨hpre, h.1, h.2.1, h.2.2⟩

theorem sqrt_two_ge_one : (1 : ℝ) ≤ Real.sqrt 2 := by
  nlinarith [sqrt_two_mul_self, Real.sqrt_nonneg 2]

/-- C2, counterexample: in game.js a single ray along the combined movement
direction gates the whole horizontal move.  From a grounded state with a
diagonal (forward+right) request against `cornerWall` — which blocks the
pure `+X` probe within the 0.5 threshold but not the forward `-Z` probe —
the tick produces zero displacement on both horizontal axes (the state is
returned unchanged), refuting per-axis resolution and the nonzero-Z-sliding
consequence for this variant. -/
theorem C2_counterexample :
    Game.animate cornerWall ⟨true, false, false, true, false⟩ ⟨0, 0, -1⟩ (1 / 10)
        ⟨⟨0, 1.8, 0⟩, ⟨0, 0, 0⟩, true, false⟩
      = ⟨⟨0, 1.8, 0⟩, ⟨0, 0, 0⟩, true, false⟩
  ∧ Game.checkWallCollision cornerWall ⟨0, 1.8, 0⟩ ⟨1, 0, 0⟩ (1 / 2)
  ∧ ¬ Game.checkWallCollision cornerWall ⟨0, 1.8, 0⟩ ⟨0, 0, -1⟩ (1 / 2) := by
  have hd : Game.direction ⟨true, false, false, true, false⟩
      = ⟨Real.sqrt 2 / 2, 0, Real.sqrt 2 / 2⟩ := by
    unfold Game.direction
    dsimp only
    rw [intent_fwd_right]
    exact normalize_one_zero_one
  have hcross : Vec3.cross ⟨0, 0, -1⟩ ⟨0, 1, 0⟩ = ⟨1, 0, 0⟩ := by
    unfold Vec3.cross
    ext <;> norm_num
  have hmv : Game.moveVector ⟨true, false, false, true, false⟩ ⟨0, 0, -1⟩ (1 / 10)
      (Game.speed ⟨true, false, false, true, false⟩ false)
      = ⟨Real.sqrt 2 / 4, 0, -(Real.sqrt 2 / 4)⟩ := by
    unfold Game.moveVector Game.speed
    dsimp only
    rw [hd, hcross]
    dsimp only
    rw [normalize_unit_neg_z, normalize_unit_x]
    unfold Vec3.add Vec3.smul
    ext <;> dsimp <;> norm_num [Game.NORMAL_SPEED] <;> ring
  have hlen : Vec3.length ⟨Real.sqrt 2 / 4, 0, -(Real.sqrt 2 / 4)⟩ = 1 / 2 := by
    unfold Vec3.length
    rw [show (Real.sqrt 2 / 4) ^ 2 + (0:ℝ) ^ 2 + (-(Real.sqrt 2 / 4)) ^ 2
          = Real.sqrt 2 * Real.sqrt 2 / 8 by ring, sqrt_two_mul_self]
    rw [show (2 : ℝ) / 8 = (1 / 2) ^ 2 by norm_num]
    exact Real.sqrt_sq (by norm_num)
  have hnorm : Vec3.normalize ⟨Real.sqrt 2 / 4, 0, -(Real.sqrt 2 / 4)⟩
      = ⟨Real.sqrt 2 / 2, 0, -(Real.sqrt 2 / 2)⟩ := by
    unfold Vec3.normalize
    rw [hlen, if_neg (by norm_num)]
    unfold Vec3.smul
    ext <;> dsimp <;> ring
  have hblock05 : Game.checkWallCollision cornerWall ⟨0, 1.8, 0⟩
      ⟨Real.sqrt 2 / 2, 0, -(Real.sqrt 2 / 2)⟩ 0.5 := by
    refine ⟨3 / 10, ?_, by norm_num, by norm_num⟩
    unfold cornerWall
    rw [if_pos]
    dsimp
    linarith [sqrt_two_ge_one]
  have hgate : ¬ ((0 : ℝ) < 1 / 2 ∧ ¬ Game.checkWallCollision cornerWall ⟨0, 1.8, 0⟩
      ⟨Real.sqrt 2 / 2, 0, -(Real.sqrt 2 / 2)⟩ 0.5) := fun h => h.2 hblock05
  have hobj : ∀ v : Game.State, ¬ Game.onObject cornerWall v := by
    rintro v ⟨t, ht, -⟩
    norm_num [cornerWall] at ht
    exact Option.noConfusion ht
  refine ⟨?_, ⟨3 / 10, by norm_num [cornerWall], by norm_num, by norm_num⟩, ?_⟩
  · unfold Game.animate Game.animatePre
    dsimp only
    rw [hmv, hlen, hnorm, if_neg hgate]
    norm_num [Game.checkCollisions, hobj, Game.currentEyeHeight, Game.GRAVITY,
      Game.NORMAL_HEIGHT, Game.CROUCH_HEIGHT]
  · rintro ⟨t, ht, -⟩
    norm_num [cornerWall] at ht
    exact Option.noConfusion ht

/-- C2, amended (holds for the first script.js variant): horizontal
collision is resolved one axis at a time, X then Z; when the X query blocks
and the Z query does not, exactly the X position delta is reverted and
`velocity.x` zeroed, while the Z move still happens in the same tick —
nonzero whenever the post-input Z velocity times delta is nonzero (e.g. a
diagonal request from rest).  Stated at yaw 0 so the camera axes are the
world axes. -/
theorem C2_axis_sliding (hit : Hit) (inp : ScriptA.Input) (δ : ℝ) (s : ScriptA.State)
    (_hf : inp.moveForward = true) (_hr : inp.moveRight = true)
    (hx : ScriptA.detectCollision hit
        (ctrlMoveRight s.pos 0 (-(ScriptA.velAfterInput inp δ s.vel).x * δ))
        (ctrlMoveRight s.pos 0 (-(ScriptA.velAfterInput inp δ s.vel).x * δ)))
    (hz : ¬ ScriptA.detectCollision hit
        (ctrlMoveForward s.pos 0 (-(ScriptA.velAfterInput inp δ s.vel).z * δ))
        (ctrlMoveForward s.pos 0 (-(ScriptA.velAfterInput inp δ s.vel).z * δ)))
    (hnz : (ScriptA.velAfterInput inp δ s.vel).z * δ ≠ 0) :
    (ScriptA.animate hit inp 0 δ s).pos.x = s.pos.x
  ∧ (ScriptA.animate hit inp 0 δ s).vel.x = 0
  ∧ (ScriptA.animate hit inp 0 δ s).pos.z
      = s.pos.z + (ScriptA.velAfterInput inp δ s.vel).z * δ
  ∧ (ScriptA.animate hit inp 0 δ s).pos.z ≠ s.pos.z
  ∧ (ScriptA.animate hit inp 0 δ s).vel.z = (ScriptA.velAfterInput inp δ s.vel).z := by
  have hrev : ctrlMoveRight (ctrlMoveRight s.pos 0
      (-(ScriptA.velAfterInput inp δ s.vel).x * δ)) 0
      ((ScriptA.velAfterInput inp δ s.vel).x * δ) = s.pos := by
    rw [ctrlMoveRight_add,
      show -(ScriptA.velAfterInput inp δ s.vel).x * δ
          + (ScriptA.velAfterInput inp δ s.vel).x * δ = 0 by ring,
      ctrlMoveRight_zero]
  have heval : ScriptA.animatePre hit inp 0 δ s
      = ⟨⟨s.pos.x, s.pos.y + (ScriptA.velAfterInput inp δ s.vel).y * δ,
          s.pos.z - -(ScriptA.velAfterInput inp δ s.vel).z * δ⟩,
         ⟨0, (ScriptA.velAfterInput inp δ s.vel).y, (ScriptA.velAfterInput inp δ s.vel).z⟩,
         s.canJump⟩ := by
    simp only [ScriptA.animatePre, ScriptA.horizontalMove]
    simp only [if_pos hx]
    rw [hrev]
    simp only [if_neg hz]
    rw [ctrlMoveForward_yaw0]
  have hpx : (ScriptA.animate hit inp 0 δ s).pos.x = s.pos.x := by
    simp only [ScriptA.animate, heval]
    split <;> rfl
  have hvx : (ScriptA.animate hit inp 0 δ s).vel.x = 0 := by
    simp only [ScriptA.animate, heval]
    split <;> rfl
  have hpz : (ScriptA.animate hit inp 0 δ s).pos.z
      = s.pos.z + (ScriptA.velAfterInput inp δ s.vel).z * δ := by
    simp only [ScriptA.animate, heval]
    split <;> (dsimp only; ring)
  have hvz : (ScriptA.animate hit inp 0 δ s).vel.z
      = (ScriptA.velAfterInput inp δ s.vel).z := by
    simp only [ScriptA.animate, heval]
    split <;> rfl
  refine ⟨hpx, hvx, hpz, ?_, hvz⟩
  rw [hpz]
  intro hcontra
  apply hnz
  linarith

/-- C2, witness: the concrete diagonal-against-a-wall scenario — from rest
at the origin with forward+right held, `slabAtX` blocks the X step and not
the Z step; the tick leaves `x` unchanged, zeroes `velocity.x`, and still
moves `z`. -/
theorem C2_axis_sliding_witness :
    (ScriptA.animate slabAtX ⟨true, false, false, true, false⟩ 0 (1 / 10)
        ⟨⟨0, 1.8, 0⟩, ⟨0, 0, 0⟩, true⟩).pos.x = 0
  ∧ (ScriptA.animate slabAtX ⟨true, false, false, true, false⟩ 0 (1 / 10)
        ⟨⟨0, 1.8, 0⟩, ⟨0, 0, 0⟩, true⟩).vel.x = 0
  ∧ (ScriptA.animate slabAtX ⟨true, false, false, true, false⟩ 0 (1 / 10)
        ⟨⟨0, 1.8, 0⟩, ⟨0, 0, 0⟩, true⟩).pos.z ≠ 0 := by
  have hv1 : ScriptA.velAfterInput ⟨true, false, false, true, false⟩ (1 / 10) ⟨0, 0, 0⟩
      = ⟨-(Real.sqrt 2 * 5 / 2), -6, -(Real.sqrt 2 * 5 / 2)⟩ := by
    unfold ScriptA.velAfterInput ScriptA.direction ScriptA.currentSpeed
    dsimp only
    rw [intent_fwd_right, normalize_one_zero_one]
    norm_num [ScriptA.WALK_SPEED, ScriptA.GRAVITY, dampStep, Vec3.mk.injEq]
    ring
  have hpx : ctrlMoveRight ⟨0, 1.8, 0⟩ 0
      (-(ScriptA.velAfterInput ⟨true, false, false, true, false⟩ (1 / 10) ⟨0, 0, 0⟩).x
        * (1 / 10))
      = ⟨Real.sqrt 2 / 4, 1.8, 0⟩ := by
    rw [hv1, ctrlMoveRight_yaw0]
    dsimp only
    norm_num [Vec3.mk.injEq]
    ring
  have hx : ScriptA.detectCollision slabAtX
      (ctrlMoveRight ⟨0, 1.8, 0⟩ 0
        (-(ScriptA.velAfterInput ⟨true, false, false, true, false⟩ (1 / 10) ⟨0, 0, 0⟩).x
          * (1 / 10)))
      (ctrlMoveRight ⟨0, 1.8, 0⟩ 0
        (-(ScriptA.velAfterInput ⟨true, false, false, true, false⟩ (1 / 10) ⟨0, 0, 0⟩).x
          * (1 / 10))) := by
    rw [hpx]
    refine ⟨1, ?_, by norm_num, by norm_num [ScriptA.PLAYER_RADIUS]⟩
    unfold slabAtX
    dsimp only
    rw [if_pos rfl]
  have hz : ¬ ScriptA.detectCollision slabAtX
      (ctrlMoveForward ⟨0, 1.8, 0⟩ 0
        (-(ScriptA.velAfterInput ⟨true, false, false, true, false⟩ (1 / 10) ⟨0, 0, 0⟩).z
          * (1 / 10)))
      (ctrlMoveForward ⟨0, 1.8, 0⟩ 0
        (-(ScriptA.velAfterInput ⟨true, false, false, true, false⟩ (1 / 10) ⟨0, 0, 0⟩).z
          * (1 / 10))) := by
    rintro ⟨t, ht, -⟩
    rw [ctrlMoveForward_yaw0] at ht
    unfold slabAtX at ht
    dsimp only at ht
    rw [if_neg (by intro h0; nlinarith [sqrt_two_pos])] at ht
    exact Option.noConfusion ht
  have hnz : (ScriptA.velAfterInput ⟨true, false, false, true, false⟩ (1 / 10)
      ⟨0, 0, 0⟩).z * (1 / 10) ≠ 0 := by
    rw [hv1]
    dsimp only
    intro h0
    nlinarith [sqrt_two_pos]
  have h := C2_axis_sliding slabAtX ⟨true, false, false, true, false⟩ (1 / 10)
    ⟨⟨0, 1.8, 0⟩, ⟨0, 0, 0⟩, true⟩ rfl rfl hx hz hnz
  exact ⟨h.1, h.2.1, h.2.2.2.1⟩

/-- C10: the wall-contact jump has no cooldown and no per-wall counter —
the controller state has no field recording past wall jumps.  With a wall
in range of the first probe at every height and `canJump` false, every
`Space` press sets `velocity.y = WALL_JUMP_FORCE_UP` again, however many
were granted before; pressing once per tick of `delta = 0.1` yields
altitude `y0 + 1.02 * n` after `n` press-and-tick cycles — unbounded
ascent up the same wall. -/
theorem C10_wall_jump_no_cooldown (hit : Hit) (yaw : ℝ) (s : ScriptB.State)
    (hblock : ∀ p : Vec3, ∃ t, hit p (rotY yaw ⟨1, 0, 0⟩) = some t ∧ 0 ≤ t ∧ t < 2)
    (hcj : s.canJump = false) (hcr : s.isCrouching = false)
    (hvx : s.vel.x = 0) (hvz : s.vel.z = 0)
    (hy : ScriptB.PLAYER_HEIGHT ≤ s.pos.y) :
    ∀ n : ℕ,
      ((wallCycle hit yaw)^[n] s).pos.y = s.pos.y + 51 / 50 * n
    ∧ (ScriptB.onKeyDownSpace hit yaw ((wallCycle hit yaw)^[n] s)).vel.y
        = ScriptB.WALL_JUMP_FORCE_UP
    ∧ ((wallCycle hit yaw)^[n] s).canJump = false := by
  have hgrant : ∀ u : ScriptB.State, u.canJump = false →
      ScriptB.onKeyDownSpace hit yaw u
        = { u with vel := ⟨u.vel.x, ScriptB.WALL_JUMP_FORCE_UP, u.vel.z⟩ } := by
    intro u hu
    unfold ScriptB.onKeyDownSpace
    rw [hu]
    simp only [Bool.false_eq_true, if_false]
    unfold ScriptB.checkWallJump
    simp only [ScriptB.wallJumpDirList, List.map_cons, List.map_nil]
    simp only [ScriptB.checkWallJumpAux]
    rw [if_pos (hblock u.pos), hu]
  have hcycle : ∀ u : ScriptB.State, u.canJump = false → u.isCrouching = false →
      u.vel.x = 0 → u.vel.z = 0 → ScriptB.PLAYER_HEIGHT ≤ u.pos.y →
      wallCycle hit yaw u
        = ⟨⟨u.pos.x, u.pos.y + 51 / 50, u.pos.z⟩, ⟨0, 51 / 5, 0⟩, false, false⟩ := by
    intro u h1 h2 h3 h4 h5
    unfold wallCycle
    rw [hgrant u h1]
    have h5' : (9 : ℝ) / 5 ≤ u.pos.y := by
      norm_num [ScriptB.PLAYER_HEIGHT] at h5
      linarith
    norm_num [ScriptB.animate, ScriptB.animatePre, ScriptB.noInput, ScriptB.direction,
      ScriptB.actualSpeed, ScriptB.currentEyeHeight, ScriptB.PLAYER_HEIGHT,
      ScriptB.CROUCH_HEIGHT, ScriptB.WALL_JUMP_FORCE_UP, intent_none, Vec3.normalize_zero,
      dampStep, h2, h3, h4, ctrlMoveRight_zero, ctrlMoveForward_zero, h1]
    linarith
  have key : ∀ n : ℕ, (wallCycle hit yaw)^[n + 1] s
      = ⟨⟨s.pos.x, s.pos.y + 51 / 50 * (n + 1 : ℕ), s.pos.z⟩,
         ⟨0, 51 / 5, 0⟩, false, false⟩ := by
    intro n
    induction n with
    | zero =>
      simp only [Function.iterate_succ_apply', Function.iterate_zero_apply]
      rw [hcycle s hcj hcr hvx hvz hy]
      norm_num
    | succ n ih =>
      rw [Function.iterate_succ_apply', ih]
      rw [hcycle _ rfl rfl rfl rfl (by
        dsimp only
        norm_num [ScriptB.PLAYER_HEIGHT] at hy ⊢
        have hnn : (0 : ℝ) ≤ 51 / 50 * (n + 1 : ℕ) := by positivity
        linarith)]
      norm_num [Vec3.mk.injEq]
      ring
  intro n
  cases n with
  | zero =>
    simp only [Function.iterate_zero_apply]
    refine ⟨by norm_num, ?_, hcj⟩
    rw [hgrant s hcj]
  | succ n =>
    rw [key n]
    refine ⟨?_, ?_, rfl⟩
    · dsimp only
    · rw [hgrant _ rfl]

/-- C10, witness: three press-and-tick cycles next to an everywhere-wall
raise the actor from 1.8 to 1.8 + 3.06, and the next press still grants
the impulse. -/
theorem C10_wall_jump_no_cooldown_witness :
    ((wallCycle hitAll 0)^[3] ⟨⟨0, 1.8, 0⟩, ⟨0, 0, 0⟩, false, false⟩).pos.y
      = 1.8 + 51 / 50 * 3
  ∧ (ScriptB.onKeyDownSpace hitAll 0
      ((wallCycle hitAll 0)^[3] ⟨⟨0, 1.8, 0⟩, ⟨0, 0, 0⟩, false, false⟩)).vel.y
      = ScriptB.WALL_JUMP_FORCE_UP
  ∧ ((wallCycle hitAll 0)^[3] ⟨⟨0, 1.8, 0⟩, ⟨0, 0, 0⟩, false, false⟩).canJump
      = false := by
  have h := C10_wall_jump_no_cooldown hitAll 0 ⟨⟨0, 1.8, 0⟩, ⟨0, 0, 0⟩, false, false⟩
    (fun p => ⟨1, rfl, by norm_num, by norm_num⟩) rfl rfl rfl rfl
    (by show ScriptB.PLAYER_HEIGHT ≤ (1.8 : ℝ); norm_num [ScriptB.PLAYER_HEIGHT]) 3
  refine ⟨?_, h.2.1, h.2.2⟩
  rw [h.1]
  norm_num
